import Mathlib

/-! # ppm-triangle: `triangle_headless.c`

A shallow embedding of `src/triangle_headless.c` and the properties of its
specification that were checked against it.

* C `int` values are mathematical integers; every arithmetic operation of the
  source whose result may leave the 32-bit range is passed through `wrapInt`.
* A byte (`GLubyte`, a byte of the output file) is represented by its value,
  a natural number.
* The pixel buffer is the list of its bytes; a read outside the buffer has no
  defined result (`none`).
* Calls into libc, GBM, EGL and OpenGL ES are recorded in a trace of `Call`s;
  what those libraries answer is taken from an environment `Env`.  Every
  combination of answers is a possible run.
* The bytes that the code writes to the output file are `save_image_data`;
  the bytes that the file holds afterwards are `stored`, which may be fewer
  when the file system refuses them.
-/

namespace PpmTriangle

/-! ## Machine integers -/

/-- Largest value of a C `int` (32 bits). -/
def INT_MAX : Int := 2147483647

/-- Smallest value of a C `int` (32 bits). -/
def INT_MIN : Int := -2147483648

/-- The `int` that a 32-bit two's-complement machine stores for the
mathematical result `v` of an `int` operation. -/
def wrapInt (v : Int) : Int := (v + 2147483648) % 4294967296 - 2147483648

/-- Conversion of an `int` to `size_t` (64 bits on the LP64 targets that have
`/dev/dri/renderD128`). -/
def toSizeT (v : Int) : Nat := (v % 18446744073709551616).toNat

/-- Line 19: the `int` expression `width * height * 4` handed to `malloc`. -/
def mallocArg (width height : Int) : Int := wrapInt (wrapInt (width * height) * 4)

/-- Line 19: the number of bytes requested from `malloc`. -/
def mallocSize (width height : Int) : Nat := toSizeT (mallocArg width height)

/-- Line 35: the `int` expression `(y * width + x) * 4` added to `pixels`. -/
def pixelOffset (width y x : Int) : Int :=
  wrapInt (wrapInt (wrapInt (y * width) + x) * 4)

/-! ## Writing the pixmap (`save_image`, lines 29-38) -/

/-- ASCII codes of a text. -/
def ascii (s : List Char) : List Nat := s.map Char.toNat

/-- The conversion `%d` of `fprintf`: a minus sign for a negative value, then
the decimal digits. -/
def printf_d (v : Int) : List Char :=
  if v < 0 then '-' :: Nat.toDigits 10 v.natAbs else Nat.toDigits 10 v.toNat

/-- Line 30: the bytes of `fprintf(fp, "P6\n%d %d\n255\n", width, height)`. -/
def fprintf_header (width height : Int) : List Nat :=
  ascii (['P', '6', '\n'] ++ printf_d width ++ [' '] ++ printf_d height ++
    ['\n', '2', '5', '5', '\n'])

/-- Line 36: `fwrite(pixel, 1, 3, fp)` with `pixel = pixels + off`, where
`pixels` is the buffer `buf`.  The three bytes read are returned; a read that
leaves the buffer has no defined result. -/
def fwrite3 (buf : List Nat) (off : Int) : Option (List Nat) :=
  if 0 ≤ off ∧ off + 3 ≤ buf.length then
    some [buf.getD off.toNat 0, buf.getD (off.toNat + 1) 0, buf.getD (off.toNat + 2) 0]
  else none

/-- Lines 34-37: the inner loop `for (int x = 0; x < width; x++)`, with `k`
iterations left, `x` the current column and `out` the bytes written to the
file so far.  The loop makes `width` iterations (none when `width <= 0`);
`x + 1` does not overflow because `x < width <= INT_MAX`. -/
def colLoop (buf : List Nat) (width y : Int) : Nat → Int → List Nat → Option (List Nat)
  | 0, _, out => some out
  | k + 1, x, out =>
    match fwrite3 buf (pixelOffset width y x) with
    | none => none
    | some rgb => colLoop buf width y k (x + 1) (out ++ rgb)

/-- Lines 33-38: the outer loop `for (int y = 0; y < height; y++)`, with `k`
iterations left, `y` the current row and `out` the bytes written to the file
so far.  The loop makes `height` iterations (none when `height <= 0`);
`y + 1` does not overflow because `y < height <= INT_MAX`. -/
def rowLoop (buf : List Nat) (width : Int) : Nat → Int → List Nat → Option (List Nat)
  | 0, _, out => some out
  | k + 1, y, out =>
    match colLoop buf width y width.toNat 0 out with
    | none => none
    | some out1 => rowLoop buf width k (y + 1) out1

/-- Lines 29-38: header and pixel loop of `save_image`, run on the buffer
`buf` that `glReadPixels` filled.  The result is the content of the file, or
`none` when a read left the buffer. -/
def save_image_data (width height : Int) (buf : List Nat) : Option (List Nat) :=
  rowLoop buf width height.toNat 0 (fprintf_header width height)

/-! ## Calls into the libraries and their answers -/

/-- The two shader stages that `CompileShaderProgram` builds. -/
inductive Stage
  | GL_VERTEX_SHADER
  | GL_FRAGMENT_SHADER
  deriving DecidableEq, Repr

/-- A call that the program makes into libc, GBM, EGL or OpenGL ES, in the
order of the source.  A call whose result the program tests carries that
result (`true`: the call succeeded).  `fprintf` and `fwrite` on the output
file are not listed: their effect is the content of the file. -/
inductive Call
  | open_ (ok : Bool)
  | gbm_create_device (ok : Bool)
  | gbm_surface_create (ok : Bool)
  | eglGetDisplay (ok : Bool)
  | eglInitialize (ok : Bool)
  | eglChooseConfig (ok : Bool) (num_configs : Nat)
  | eglCreateContext (ok : Bool)
  | eglCreateWindowSurface (ok : Bool)
  | eglMakeCurrent (ok : Bool)
  | eglDestroySurface
  | eglDestroyContext
  | eglTerminate
  | gbm_surface_destroy
  | gbm_device_destroy
  | close
  | eglSwapBuffers
  | glViewport
  | glGenVertexArrays
  | glBindVertexArray
  | glGenBuffers
  | glBindBuffer
  | glBufferData
  | glVertexAttribPointer
  | glEnableVertexAttribArray
  | glCreateShader (stage : Stage)
  | glShaderSource (stage : Stage)
  | glCompileShader (stage : Stage)
  | glGetShaderiv (stage : Stage) (result : Bool)
  | glGetShaderInfoLog (stage : Stage) (bufSize : Nat)
  | glAttachShader (stage : Stage)
  | glCreateProgram (ok : Bool)
  | glLinkProgram
  | glValidateProgram
  | glGetProgramiv (result : Bool)
  | glGetProgramInfoLog (bufSize : Nat)
  | glClearColor
  | glClear
  | glUseProgram
  | glDrawArrays
  | glReadPixels
  | fopen (ok : Bool)
  | malloc (size : Nat) (ok : Bool)
  | fclose
  | free
  | perror
  | printf (log : List Nat)
  | exit (code : Nat)
  deriving DecidableEq, Repr

/-- What the libraries answer in one run of the program. -/
structure Env where
  /-- Line 188: `open` returned a descriptor `>= 0`. -/
  open_ok : Bool
  /-- Line 195: `gbm_create_device` returned a non-null device. -/
  gbm_create_device_ok : Bool
  /-- Line 203: `gbm_surface_create` returned a non-null surface. -/
  gbm_surface_create_ok : Bool
  /-- Line 212: `eglGetDisplay` returned a display other than `EGL_NO_DISPLAY`. -/
  eglGetDisplay_ok : Bool
  /-- Line 222: `eglInitialize` returned `EGL_TRUE`. -/
  eglInitialize_ok : Bool
  /-- Line 243: `eglChooseConfig` returned `EGL_TRUE`. -/
  eglChooseConfig_ok : Bool
  /-- Line 243: the number of matching configurations stored in `num_configs`. -/
  num_configs : Nat
  /-- Line 257: `eglCreateContext` returned a context other than `EGL_NO_CONTEXT`. -/
  eglCreateContext_ok : Bool
  /-- Line 268: `eglCreateWindowSurface` returned a surface other than `EGL_NO_SURFACE`. -/
  eglCreateWindowSurface_ok : Bool
  /-- Line 280: `eglMakeCurrent` returned `EGL_TRUE`. -/
  eglMakeCurrent_ok : Bool
  /-- Line 141: `glCreateProgram` returned a non-zero program. -/
  glCreateProgram_ok : Bool
  /-- Line 126: `GL_COMPILE_STATUS` of each stage. -/
  compile_ok : Stage → Bool
  /-- The information log that the driver holds for each stage. -/
  shader_log : Stage → List Nat
  /-- Line 162: `GL_LINK_STATUS`. -/
  link_ok : Bool
  /-- Line 174: `GL_VALIDATE_STATUS`. -/
  validate_ok : Bool
  /-- The information log of the program after `glLinkProgram`. -/
  link_log : List Nat
  /-- The information log of the program after `glValidateProgram`. -/
  validate_log : List Nat
  /-- Line 12: `fopen` returned a non-null stream. -/
  fopen_ok : Bool
  /-- Line 19: `malloc` returned a non-null pointer. -/
  malloc_ok : Bool
  /-- Line 27: the byte that `glReadPixels` leaves at each offset of the buffer. -/
  pixel_data : Nat → Nat
  /-- Lines 30, 36, 40: the number of bytes that the file system accepts for
  the output file (`none`: no limit).  Beyond it `fprintf`, `fwrite` and
  `fclose` report a failure; the code discards their results. -/
  file_capacity : Option Nat

/-- Value of `EXIT_SUCCESS` in `<stdlib.h>`. -/
def EXIT_SUCCESS : Nat := 0

/-- Value of `EXIT_FAILURE` in `<stdlib.h>`. -/
def EXIT_FAILURE : Nat := 1

/-! ## `save_image` (lines 11-42) -/

/-- How a call of `save_image` ends. -/
inductive Flow
  /-- The function returned to its caller. -/
  | returns
  /-- The function ended the process with `exit(code)`. -/
  | exits (code : Nat)
  /-- The pixel loop read outside the buffer. -/
  | undefined
  deriving DecidableEq, Repr

/-- One call of `save_image`: the library calls in order, how it ended, and
the content of the output file (`none` when the file was not opened).  The
function does not test the results of `fprintf`, `fwrite` and `fclose`, so
`flow` does not depend on how many bytes the file holds. -/
structure SaveRun where
  trace : List Call
  flow : Flow
  file : Option (List Nat)

/-- Lines 30, 36, 40: what the file holds after the code has written `bytes`
to it and closed it: all of them, or as many as the file system accepted. -/
def stored (env : Env) (bytes : List Nat) : List Nat :=
  match env.file_capacity with
  | none => bytes
  | some n => bytes.take n

/-- Line 27: the buffer of `size` bytes after `glReadPixels` has filled it. -/
def readBack (env : Env) (size : Nat) : List Nat := (List.range size).map env.pixel_data

/-- Lines 11-42: `save_image(filename, width, height)`. -/
def save_image (env : Env) (width height : Int) : SaveRun :=
  if env.fopen_ok = false then
    { trace := [.fopen false, .perror, .exit EXIT_FAILURE]
      flow := .exits EXIT_FAILURE
      file := none }
  else if env.malloc_ok = false then
    { trace := [.fopen true, .malloc (mallocSize width height) false, .perror, .fclose,
        .exit EXIT_FAILURE]
      flow := .exits EXIT_FAILURE
      file := some [] }
  else
    match save_image_data width height (readBack env (mallocSize width height)) with
    | none =>
      { trace := [.fopen true, .malloc (mallocSize width height) true, .glReadPixels]
        flow := .undefined
        file := none }
    | some bytes =>
      { trace := [.fopen true, .malloc (mallocSize width height) true, .glReadPixels,
          .fclose, .free]
        flow := .returns
        file := some (stored env bytes) }

/-! ## Geometry and shaders (lines 69-181) -/

/-- Lines 69-99: `CreateTriangle()`. -/
def CreateTriangle : List Call :=
  [.glGenVertexArrays, .glBindVertexArray, .glGenBuffers, .glBindBuffer, .glBufferData,
    .glVertexAttribPointer, .glEnableVertexAttribArray, .glBindBuffer, .glBindVertexArray]

/-- `glGetShaderInfoLog` and `glGetProgramInfoLog` with `length = NULL`: at
most `bufSize` characters of the driver's log are stored, the null terminator
included. -/
def infoLog (driverLog : List Nat) (bufSize : Nat) : List Nat := driverLog.take (bufSize - 1)

/-- The conversion `%s` of `printf`: the characters before the first null. -/
def printf_s (buffer : List Nat) : List Nat := buffer.takeWhile (fun c => c != 0)

/-- Lines 101-136: `AddShader(program, shaderSource, shaderType)`. -/
def AddShader (env : Env) (shaderType : Stage) : List Call :=
  [.glCreateShader shaderType, .glShaderSource shaderType, .glCompileShader shaderType,
    .glGetShaderiv shaderType (env.compile_ok shaderType)] ++
  if env.compile_ok shaderType = false then
    [.glGetShaderInfoLog shaderType 1024,
      .printf (printf_s (infoLog (env.shader_log shaderType) 1024))]
  else
    [.glAttachShader shaderType]

/-- Lines 138-181: `CompileShaderProgram()`. -/
def CompileShaderProgram (env : Env) : List Call :=
  [.glCreateProgram env.glCreateProgram_ok] ++
  if env.glCreateProgram_ok = false then
    [.printf []]
  else
    AddShader env .GL_VERTEX_SHADER ++ AddShader env .GL_FRAGMENT_SHADER ++
    [.glLinkProgram, .glGetProgramiv env.link_ok] ++
    if env.link_ok = false then
      [.glGetProgramInfoLog 1024, .printf (printf_s (infoLog env.link_log 1024))]
    else
      [.glValidateProgram, .glGetProgramiv env.validate_ok] ++
      if env.validate_ok = false then
        [.glGetProgramInfoLog 1024, .printf (printf_s (infoLog env.validate_log 1024))]
      else
        []

/-! ## `main` (lines 183-331) -/

/-- How a run of the program ends. -/
inductive Outcome
  /-- The function `main` returned `code`. -/
  | returned (code : Nat)
  /-- The process was ended by `exit(code)` inside `save_image`. -/
  | exited (code : Nat)
  /-- The pixel loop read outside the buffer. -/
  | undefined
  deriving DecidableEq, Repr

/-- One run of the program: the library calls in order, how it ended, and the
content of `triangle.ppm` (`none` when the file was not opened). -/
structure Run where
  trace : List Call
  outcome : Outcome
  file : Option (List Nat)

/-- The exit code of the process. -/
def exitCode (r : Run) : Option Nat :=
  match r.outcome with
  | .returned code => some code
  | .exited code => some code
  | .undefined => none

/-- Lines 292-317: viewport, geometry, shaders, clear, draw and swap. -/
def render (env : Env) : List Call :=
  [.glViewport] ++ CreateTriangle ++ CompileShaderProgram env ++
  [.glClearColor, .glClear, .glUseProgram, .glBindVertexArray, .glDrawArrays,
    .glBindVertexArray, .glUseProgram, .eglSwapBuffers]

/-- Lines 183-331: `main()`. -/
def main (env : Env) : Run :=
  let width : Int := 800
  let height : Int := 600
  let t1 := [Call.open_ env.open_ok]
  if env.open_ok = false then
    ⟨t1 ++ [.perror], .returned EXIT_FAILURE, none⟩
  else
  let t2 := t1 ++ [.gbm_create_device env.gbm_create_device_ok]
  if env.gbm_create_device_ok = false then
    ⟨t2 ++ [.perror, .close], .returned EXIT_FAILURE, none⟩
  else
  let t3 := t2 ++ [.gbm_surface_create env.gbm_surface_create_ok]
  if env.gbm_surface_create_ok = false then
    ⟨t3 ++ [.perror, .gbm_device_destroy, .close], .returned EXIT_FAILURE, none⟩
  else
  let t4 := t3 ++ [.eglGetDisplay env.eglGetDisplay_ok]
  if env.eglGetDisplay_ok = false then
    ⟨t4 ++ [.perror, .gbm_surface_destroy, .gbm_device_destroy, .close],
      .returned EXIT_FAILURE, none⟩
  else
  let t5 := t4 ++ [.eglInitialize env.eglInitialize_ok]
  if env.eglInitialize_ok = false then
    ⟨t5 ++ [.perror, .eglTerminate, .gbm_surface_destroy, .gbm_device_destroy, .close],
      .returned EXIT_FAILURE, none⟩
  else
  let t6 := t5 ++ [.eglChooseConfig env.eglChooseConfig_ok env.num_configs]
  if env.eglChooseConfig_ok = false then
    ⟨t6 ++ [.perror, .eglTerminate, .gbm_surface_destroy, .gbm_device_destroy, .close],
      .returned EXIT_FAILURE, none⟩
  else
  let t7 := t6 ++ [.eglCreateContext env.eglCreateContext_ok]
  if env.eglCreateContext_ok = false then
    ⟨t7 ++ [.perror, .eglTerminate, .gbm_surface_destroy, .gbm_device_destroy, .close],
      .returned EXIT_FAILURE, none⟩
  else
  let t8 := t7 ++ [.eglCreateWindowSurface env.eglCreateWindowSurface_ok]
  if env.eglCreateWindowSurface_ok = false then
    ⟨t8 ++ [.perror, .eglDestroyContext, .eglTerminate, .gbm_surface_destroy,
        .gbm_device_destroy, .close],
      .returned EXIT_FAILURE, none⟩
  else
  let t9 := t8 ++ [.eglMakeCurrent env.eglMakeCurrent_ok]
  if env.eglMakeCurrent_ok = false then
    ⟨t9 ++ [.perror, .eglDestroySurface, .eglDestroyContext, .eglTerminate,
        .gbm_surface_destroy, .gbm_device_destroy, .close],
      .returned EXIT_FAILURE, none⟩
  else
  let t10 := t9 ++ render env
  let s := save_image env width height
  match s.flow with
  | .exits code => ⟨t10 ++ s.trace, .exited code, s.file⟩
  | .undefined => ⟨t10 ++ s.trace, .undefined, s.file⟩
  | .returns =>
    ⟨t10 ++ s.trace ++ [.eglDestroySurface, .eglDestroyContext, .eglTerminate,
        .gbm_surface_destroy, .gbm_device_destroy, .close],
      .returned EXIT_SUCCESS, s.file⟩

/-! ## Resources of `main` and of `save_image` -/

/-- The resources that `main` acquires, named after its local variables. -/
inductive Resource
  | drm_fd
  | gbm
  | surface
  | egl_display
  | context
  | egl_surface
  deriving DecidableEq, Repr

/-- The resource that a call acquires, when it succeeds.  `eglGetDisplay`
yields the display connection that `eglTerminate` releases; `eglInitialize`,
`eglChooseConfig` and `eglMakeCurrent` acquire nothing that `main` releases. -/
def acquires : Call → Option Resource
  | .open_ true => some .drm_fd
  | .gbm_create_device true => some .gbm
  | .gbm_surface_create true => some .surface
  | .eglGetDisplay true => some .egl_display
  | .eglCreateContext true => some .context
  | .eglCreateWindowSurface true => some .egl_surface
  | _ => none

/-- The resource that a call releases. -/
def releases : Call → Option Resource
  | .close => some .drm_fd
  | .gbm_device_destroy => some .gbm
  | .gbm_surface_destroy => some .surface
  | .eglTerminate => some .egl_display
  | .eglDestroyContext => some .context
  | .eglDestroySurface => some .egl_surface
  | _ => none

/-- The call that releases a resource. -/
def releaseCall : Resource → Call
  | .drm_fd => .close
  | .gbm => .gbm_device_destroy
  | .surface => .gbm_surface_destroy
  | .egl_display => .eglTerminate
  | .context => .eglDestroyContext
  | .egl_surface => .eglDestroySurface

/-- The resources acquired in a trace, in the order of acquisition. -/
def acquired (t : List Call) : List Resource := t.filterMap acquires

/-- The resources released in a trace, in the order of release. -/
def released (t : List Call) : List Resource := t.filterMap releases

/-- The nine acquisition steps of `main`, `eglMakeCurrent` included. -/
def isAcquisition : Call → Bool
  | .open_ _ => true
  | .gbm_create_device _ => true
  | .gbm_surface_create _ => true
  | .eglGetDisplay _ => true
  | .eglInitialize _ => true
  | .eglChooseConfig _ _ => true
  | .eglCreateContext _ => true
  | .eglCreateWindowSurface _ => true
  | .eglMakeCurrent _ => true
  | _ => false

/-- The calls into OpenGL ES (`gl...`). -/
def isGL : Call → Bool
  | .glViewport => true
  | .glGenVertexArrays => true
  | .glBindVertexArray => true
  | .glGenBuffers => true
  | .glBindBuffer => true
  | .glBufferData => true
  | .glVertexAttribPointer => true
  | .glEnableVertexAttribArray => true
  | .glCreateShader _ => true
  | .glShaderSource _ => true
  | .glCompileShader _ => true
  | .glGetShaderiv _ _ => true
  | .glGetShaderInfoLog _ _ => true
  | .glAttachShader _ => true
  | .glCreateProgram _ => true
  | .glLinkProgram => true
  | .glValidateProgram => true
  | .glGetProgramiv _ => true
  | .glGetProgramInfoLog _ => true
  | .glClearColor => true
  | .glClear => true
  | .glUseProgram => true
  | .glDrawArrays => true
  | .glReadPixels => true
  | _ => false

/-- All nine acquisition steps of `main` succeed. -/
def allAcquired (env : Env) : Bool :=
  env.open_ok && env.gbm_create_device_ok && env.gbm_surface_create_ok &&
  env.eglGetDisplay_ok && env.eglInitialize_ok && env.eglChooseConfig_ok &&
  env.eglCreateContext_ok && env.eglCreateWindowSurface_ok && env.eglMakeCurrent_ok

/-- Number of streams opened by `fopen` in a trace. -/
def filesOpened (t : List Call) : Nat := t.count (.fopen true)

/-- Number of `fclose` calls in a trace. -/
def filesClosed (t : List Call) : Nat := t.count .fclose

/-- Number of buffers that `malloc` returned in a trace. -/
def buffersAllocated (t : List Call) : Nat :=
  t.countP fun c => match c with
    | .malloc _ true => true
    | _ => false

/-- Number of `free` calls in a trace. -/
def buffersFreed (t : List Call) : Nat := t.count .free

/-- An environment in which every call succeeds and the frame is black. -/
def envAllOk : Env where
  open_ok := true
  gbm_create_device_ok := true
  gbm_surface_create_ok := true
  eglGetDisplay_ok := true
  eglInitialize_ok := true
  eglChooseConfig_ok := true
  num_configs := 1
  eglCreateContext_ok := true
  eglCreateWindowSurface_ok := true
  eglMakeCurrent_ok := true
  glCreateProgram_ok := true
  compile_ok := fun _ => true
  shader_log := fun _ => []
  link_ok := true
  validate_ok := true
  link_log := []
  validate_log := []
  fopen_ok := true
  malloc_ok := true
  pixel_data := fun _ => 0
  file_capacity := none

/-- Every call succeeds, except that the output file cannot be opened. -/
def envFopenFails : Env := { envAllOk with fopen_ok := false }

/-- Every call succeeds, and `eglChooseConfig` returns `EGL_TRUE` with zero
matching configurations. -/
def envNoConfig : Env := { envAllOk with num_configs := 0 }

/-- Every call that the code tests succeeds, and the file system accepts no
byte for the output file. -/
def envDiskFull : Env := { envAllOk with file_capacity := some 0 }

/-- Every call up to `eglCreateWindowSurface` succeeds and `eglMakeCurrent` fails. -/
def envMakeCurrentFails : Env := { envAllOk with eglMakeCurrent_ok := false }

/-- An environment in which the vertex stage fails to compile, with a
driver log of 3000 characters, and everything else succeeds. -/
def envVertexFails : Env :=
  { envAllOk with
    compile_ok := fun stage => stage != .GL_VERTEX_SHADER
    shader_log := fun _ => List.replicate 3000 65 }

/-- As `envNoConfig`, and the driver then rejects the context creation. -/
def envNoConfigRejected : Env := { envNoConfig with eglCreateContext_ok := false }

/-! ## Definitions used to state the properties -/

/-- A C `int` holds the value `v` without overflow. -/
def fitsInt (v : Int) : Prop := INT_MIN ≤ v ∧ v ≤ INT_MAX

/-- The calls of `main` up to and including a successful `eglMakeCurrent`. -/
def acquisitionCalls (env : Env) : List Call :=
  [.open_ true, .gbm_create_device true, .gbm_surface_create true, .eglGetDisplay true,
    .eglInitialize true, .eglChooseConfig true env.num_configs, .eglCreateContext true,
    .eglCreateWindowSurface true, .eglMakeCurrent true]

/-- The run of `main` whose first failing step is step `k` (counted from 0,
in the order of `acquisitionCalls`): the calls made so far, `perror`, and the
release calls of that branch. -/
def failedRun (env : Env) : Nat → Run
  | 0 => ⟨[.open_ false, .perror], .returned EXIT_FAILURE, none⟩
  | 1 => ⟨[.open_ true, .gbm_create_device false, .perror, .close],
      .returned EXIT_FAILURE, none⟩
  | 2 => ⟨[.open_ true, .gbm_create_device true, .gbm_surface_create false, .perror,
        .gbm_device_destroy, .close],
      .returned EXIT_FAILURE, none⟩
  | 3 => ⟨[.open_ true, .gbm_create_device true, .gbm_surface_create true,
        .eglGetDisplay false, .perror, .gbm_surface_destroy, .gbm_device_destroy, .close],
      .returned EXIT_FAILURE, none⟩
  | 4 => ⟨[.open_ true, .gbm_create_device true, .gbm_surface_create true,
        .eglGetDisplay true, .eglInitialize false, .perror, .eglTerminate,
        .gbm_surface_destroy, .gbm_device_destroy, .close],
      .returned EXIT_FAILURE, none⟩
  | 5 => ⟨[.open_ true, .gbm_create_device true, .gbm_surface_create true,
        .eglGetDisplay true, .eglInitialize true, .eglChooseConfig false env.num_configs,
        .perror, .eglTerminate, .gbm_surface_destroy, .gbm_device_destroy, .close],
      .returned EXIT_FAILURE, none⟩
  | 6 => ⟨[.open_ true, .gbm_create_device true, .gbm_surface_create true,
        .eglGetDisplay true, .eglInitialize true, .eglChooseConfig true env.num_configs,
        .eglCreateContext false, .perror, .eglTerminate, .gbm_surface_destroy,
        .gbm_device_destroy, .close],
      .returned EXIT_FAILURE, none⟩
  | 7 => ⟨[.open_ true, .gbm_create_device true, .gbm_surface_create true,
        .eglGetDisplay true, .eglInitialize true, .eglChooseConfig true env.num_configs,
        .eglCreateContext true, .eglCreateWindowSurface false, .perror, .eglDestroyContext,
        .eglTerminate, .gbm_surface_destroy, .gbm_device_destroy, .close],
      .returned EXIT_FAILURE, none⟩
  | _ => ⟨[.open_ true, .gbm_create_device true, .gbm_surface_create true,
        .eglGetDisplay true, .eglInitialize true, .eglChooseConfig true env.num_configs,
        .eglCreateContext true, .eglCreateWindowSurface true, .eglMakeCurrent false, .perror,
        .eglDestroySurface, .eglDestroyContext, .eglTerminate, .gbm_surface_destroy,
        .gbm_device_destroy, .close],
      .returned EXIT_FAILURE, none⟩

/-! ## The pixmap the specification describes -/

/-- The three bytes (R, G, B) of the pixel in row `y`, column `x` of a
`W`-pixel-wide RGBA8 buffer: offsets `(y*W+x)*4`, `+1`, `+2`. -/
def rgbAt (px : List Nat) (W y x : Nat) : List Nat :=
  [px.getD ((y * W + x) * 4) 0, px.getD ((y * W + x) * 4 + 1) 0, px.getD ((y * W + x) * 4 + 2) 0]

/-- The header `P6\n<W> <H>\n255\n` with `W` and `H` in decimal. -/
def ppmHeader (W H : Nat) : List Nat :=
  ascii ("P6\n" ++ toString W ++ " " ++ toString H ++ "\n255\n").toList

/-- The file of the specification: the header, then for each row top to
bottom and each column left to right the R, G, B bytes of the pixel. -/
def ppmFile (W H : Nat) (px : List Nat) : List Nat :=
  ppmHeader W H ++
    (List.range H).flatMap fun y => (List.range W).flatMap fun x => rgbAt px W y x

/-! ## Lemmas on the machine arithmetic -/

theorem wrapInt_eq_self {v : Int} (h1 : INT_MIN ≤ v) (h2 : v ≤ INT_MAX) : wrapInt v = v := by
  unfold wrapInt
  unfold INT_MIN at h1
  unfold INT_MAX at h2
  omega

theorem pixel_index_lt {W H y x : Nat} (hy : y < H) (hx : x < W) : y * W + x < W * H := by
  calc y * W + x < y * W + W := by omega
    _ = (y + 1) * W := by ring
    _ ≤ H * W := Nat.mul_le_mul_right W hy
    _ = W * H := by ring

theorem wrapInt_natCast {n : Nat} (h : n < 2147483648) : wrapInt (n : Int) = (n : Int) := by
  unfold wrapInt
  omega

theorem pixelOffset_eq {W H y x : Nat} (hy : y < H) (hx : x < W)
    (hrep : W * H * 4 < 2147483648) :
    pixelOffset (W : Int) (y : Int) (x : Int) = (((y * W + x) * 4 : Nat) : Int) := by
  have hlt := pixel_index_lt hy hx
  have hyw : y * W ≤ y * W + x := Nat.le_add_right _ _
  have e1 : wrapInt ((y : Int) * (W : Int)) = ((y * W : Nat) : Int) := by
    rw [← Nat.cast_mul]
    exact wrapInt_natCast (by omega)
  have e2 : wrapInt (((y * W : Nat) : Int) + (x : Int)) = ((y * W + x : Nat) : Int) := by
    rw [← Nat.cast_add]
    exact wrapInt_natCast (by omega)
  have e3 : wrapInt (((y * W + x : Nat) : Int) * 4) = (((y * W + x) * 4 : Nat) : Int) := by
    have : (((y * W + x : Nat) : Int) * 4) = (((y * W + x) * 4 : Nat) : Int) := by push_cast; ring
    rw [this]
    exact wrapInt_natCast (by omega)
  unfold pixelOffset
  rw [e1, e2, e3]

theorem fwrite3_in_bounds (px : List Nat) {W H y x : Nat} (hy : y < H) (hx : x < W)
    (hlen : px.length = W * H * 4) :
    fwrite3 px (((y * W + x) * 4 : Nat) : Int) = some (rgbAt px W y x) := by
  have hlt := pixel_index_lt hy hx
  unfold fwrite3 rgbAt
  rw [if_pos]
  · rw [Int.toNat_ofNat]
  · constructor
    · exact Int.ofNat_nonneg _
    · rw [hlen]
      norm_cast
      omega

/-! ## Lemmas on the pixel loop -/

theorem colLoop_zero (buf : List Nat) (width y x : Int) (out : List Nat) :
    colLoop buf width y 0 x out = some out := rfl

theorem colLoop_succ (buf : List Nat) (width y x : Int) (k : Nat) (out : List Nat) :
    colLoop buf width y (k + 1) x out =
      match fwrite3 buf (pixelOffset width y x) with
      | none => none
      | some rgb => colLoop buf width y k (x + 1) (out ++ rgb) := rfl

theorem rowLoop_zero (buf : List Nat) (width y : Int) (out : List Nat) :
    rowLoop buf width 0 y out = some out := rfl

theorem rowLoop_succ (buf : List Nat) (width y : Int) (k : Nat) (out : List Nat) :
    rowLoop buf width (k + 1) y out =
      match colLoop buf width y width.toNat 0 out with
      | none => none
      | some out1 => rowLoop buf width k (y + 1) out1 := rfl

theorem colLoop_eq_some (buf : List Nat) (width y : Int) (f : Nat → List Nat) :
    ∀ (k x0 : Nat) (out : List Nat),
      (∀ x, x0 ≤ x → x < x0 + k →
        fwrite3 buf (pixelOffset width y (x : Int)) = some (f x)) →
      colLoop buf width y k (x0 : Int) out = some (out ++ (List.range' x0 k).flatMap f) := by
  intro k
  induction k with
  | zero => intro x0 out _; simp [colLoop_zero]
  | succ k ih =>
    intro x0 out h
    have h0 := h x0 (Nat.le_refl _) (by omega)
    have hstep := ih (x0 + 1) (out ++ f x0) (fun x hx1 hx2 => h x (by omega) (by omega))
    rw [colLoop_succ, h0]
    simp only []
    have hc : ((x0 : Int) + 1) = ((x0 + 1 : Nat) : Int) := by push_cast; rfl
    rw [hc, hstep]
    simp [List.range'_succ, List.append_assoc]

theorem rowLoop_eq_some (buf : List Nat) (width : Int) (g : Nat → List Nat) :
    ∀ (k y0 : Nat) (out : List Nat),
      (∀ y, y0 ≤ y → y < y0 + k → ∀ out1,
        colLoop buf width (y : Int) width.toNat 0 out1 = some (out1 ++ g y)) →
      rowLoop buf width k (y0 : Int) out = some (out ++ (List.range' y0 k).flatMap g) := by
  intro k
  induction k with
  | zero => intro y0 out _; simp [rowLoop_zero]
  | succ k ih =>
    intro y0 out h
    have h0 := h y0 (Nat.le_refl _) (by omega) out
    have hstep := ih (y0 + 1) (out ++ g y0) (fun y hy1 hy2 => h y (by omega) (by omega))
    rw [rowLoop_succ, h0]
    simp only []
    have hc : ((y0 : Int) + 1) = ((y0 + 1 : Nat) : Int) := by push_cast; rfl
    rw [hc, hstep]
    simp [List.range'_succ, List.append_assoc]

theorem printf_d_natCast (n : Nat) : printf_d (n : Int) = Nat.toDigits 10 n := by
  unfold printf_d
  rw [if_neg (by omega)]
  simp

theorem fprintf_header_eq (W H : Nat) : fprintf_header (W : Int) (H : Int) = ppmHeader W H := by
  unfold fprintf_header ppmHeader
  rw [printf_d_natCast, printf_d_natCast]
  simp [toString, Nat.repr, String.toList, List.asString]

/-- On a buffer of `W*H*4` bytes, with `W*H*4` in the range of `int`, header
and pixel loop run to the end and write the file of the specification. -/
theorem save_image_data_eq (W H : Nat) (px : List Nat)
    (hlen : px.length = W * H * 4) (hrep : W * H * 4 < 2147483648) :
    save_image_data (W : Int) (H : Int) px = some (ppmFile W H px) := by
  unfold save_image_data ppmFile
  rw [fprintf_header_eq, Int.toNat_ofNat, List.range_eq_range', List.range_eq_range']
  have h := rowLoop_eq_some px (W : Int) (fun y => (List.range' 0 W).flatMap (rgbAt px W y))
    H 0 (ppmHeader W H) (by
      intro y _ hy out1
      rw [Int.toNat_ofNat]
      have hc := colLoop_eq_some px (W : Int) (y : Int) (rgbAt px W y) W 0 out1 (by
        intro x _ hx
        rw [pixelOffset_eq (by omega) (by omega) hrep]
        exact fwrite3_in_bounds px (by omega) (by omega) hlen)
      exact hc)
  exact h

theorem mallocArg_eq {W H : Nat} (hrep : W * H * 4 < 2147483648) :
    mallocArg (W : Int) (H : Int) = ((W * H * 4 : Nat) : Int) := by
  have e1 : wrapInt ((W : Int) * (H : Int)) = ((W * H : Nat) : Int) := by
    rw [← Nat.cast_mul]
    exact wrapInt_natCast (by omega)
  have e2 : wrapInt (((W * H : Nat) : Int) * 4) = ((W * H * 4 : Nat) : Int) := by
    have : (((W * H : Nat) : Int) * 4) = ((W * H * 4 : Nat) : Int) := by push_cast; ring
    rw [this]
    exact wrapInt_natCast hrep
  unfold mallocArg
  rw [e1, e2]

theorem mallocSize_eq {W H : Nat} (hrep : W * H * 4 < 2147483648) :
    mallocSize (W : Int) (H : Int) = W * H * 4 := by
  unfold mallocSize toSizeT
  rw [mallocArg_eq hrep]
  omega

/-- When both dimensions are `int` values and `malloc` was asked for `W*H*4`
bytes, `W*H*4` is in the range of `int`. -/
theorem representable_of_mallocSize {W H : Nat} (hW : (W : Int) ≤ INT_MAX)
    (hH : (H : Int) ≤ INT_MAX) (h : mallocSize (W : Int) (H : Int) = W * H * 4) :
    W * H * 4 < 2147483648 := by
  unfold INT_MAX at hW hH
  have hW1 : W ≤ 2147483647 := by omega
  have hH1 : H ≤ 2147483647 := by omega
  have hP : W * H ≤ 2147483647 * 2147483647 := Nat.mul_le_mul hW1 hH1
  unfold mallocSize toSizeT mallocArg wrapInt at h
  rw [← Nat.cast_mul] at h
  generalize W * H = P at h hP ⊢
  omega

theorem length_flatMap_const {α : Type} (f : α → List Nat) (c : Nat)
    (hf : ∀ a, (f a).length = c) : ∀ l : List α, (l.flatMap f).length = c * l.length := by
  intro l
  induction l with
  | nil => simp
  | cons a l ih =>
    rw [List.flatMap_cons, List.length_append, ih, hf, List.length_cons]
    ring

theorem ppmHeader_length (W H : Nat) :
    (ppmHeader W H).length = 3 + (toString W ++ " " ++ toString H ++ "\n").length + 4 := by
  unfold ppmHeader ascii
  have h1 : "P6\n".data.length = 3 := rfl
  have h2 : "\n255\n".data.length = 5 := rfl
  have h3 : "\n".data.length = 1 := rfl
  have h4 : " ".data.length = 1 := rfl
  have h5 : ∀ a b : String, (a.append b).data = a.data ++ b.data := fun _ _ => rfl
  simp only [String.length, String.toList, String.data_append, List.length_map,
    List.length_append, h5, h1, h2, h3, h4]
  omega

theorem ppmFile_length (W H : Nat) (px : List Nat) :
    (ppmFile W H px).length = (ppmHeader W H).length + 3 * W * H := by
  unfold ppmFile
  rw [List.length_append]
  have hrow : ∀ y, ((List.range W).flatMap fun x => rgbAt px W y x).length = 3 * W := by
    intro y
    rw [length_flatMap_const _ 3 (fun x => by simp [rgbAt]), List.length_range]
  rw [length_flatMap_const _ (3 * W) hrow, List.length_range]

theorem getD_flatMap_range (f : Nat → List Nat) (m : Nat) (hf : ∀ a, (f a).length = m)
    (d : Nat) :
    ∀ n i c, i < n → c < m →
      ((List.range n).flatMap f).getD (m * i + c) d = (f i).getD c d := by
  intro n
  induction n with
  | zero => intro i c hi; omega
  | succ n ih =>
    intro i c hi hc
    rw [List.range_succ, List.flatMap_append]
    have hlen : ((List.range n).flatMap f).length = m * n := by
      rw [length_flatMap_const f m hf, List.length_range]
    by_cases hin : i < n
    · have hlt : m * i + c < m * n := by
        have : m * (i + 1) ≤ m * n := Nat.mul_le_mul_left m hin
        rw [Nat.mul_succ] at this
        omega
      rw [List.getD_append _ _ _ _ (by rw [hlen]; exact hlt)]
      exact ih i c hin hc
    · have hi' : i = n := by omega
      subst hi'
      rw [List.getD_append_right _ _ _ _ (by rw [hlen]; omega), hlen]
      have : m * i + c - m * i = c := by omega
      rw [this]
      simp

/-- Position by position: after the header, byte `c` of pixel `(y, x)` of the
file of the specification is byte `c` of that pixel in the buffer. -/
theorem ppmFile_getD (W H : Nat) (px : List Nat) (y x c : Nat) (hy : y < H) (hx : x < W)
    (hc : c < 3) :
    (ppmFile W H px).getD ((ppmHeader W H).length + 3 * (y * W + x) + c) 0
      = px.getD ((y * W + x) * 4 + c) 0 := by
  unfold ppmFile
  rw [List.getD_append_right _ _ _ _ (by omega)]
  have hidx : (ppmHeader W H).length + 3 * (y * W + x) + c - (ppmHeader W H).length
      = 3 * W * y + (3 * x + c) := by
    have : 3 * (y * W + x) = 3 * W * y + 3 * x := by ring
    omega
  rw [hidx]
  have hrow : ∀ y', ((List.range W).flatMap fun x' => rgbAt px W y' x').length = 3 * W := by
    intro y'
    rw [length_flatMap_const _ 3 (fun x' => by simp [rgbAt]), List.length_range]
  have hxc : 3 * x + c < 3 * W := by omega
  rw [getD_flatMap_range _ (3 * W) hrow 0 H y (3 * x + c) hy hxc,
    getD_flatMap_range _ 3 (fun x' => by simp [rgbAt]) 0 W x c hx hc]
  unfold rgbAt
  interval_cases c <;> rfl

theorem pixelOffset_mod_four (width y x : Int) : pixelOffset width y x % 4 = 0 := by
  unfold pixelOffset
  generalize wrapInt (wrapInt (y * width) + x) = a
  unfold wrapInt
  omega

theorem fwrite3_congr (px px' : List Nat) (hlen : px.length = px'.length)
    (hrgb : ∀ i, i % 4 ≠ 3 → px.getD i 0 = px'.getD i 0) (off : Int) (hoff : off % 4 = 0) :
    fwrite3 px off = fwrite3 px' off := by
  unfold fwrite3
  rw [hlen]
  split
  · rename_i h
    have h0 : off.toNat % 4 = 0 := by omega
    rw [hrgb off.toNat (by omega), hrgb (off.toNat + 1) (by omega),
      hrgb (off.toNat + 2) (by omega)]
  · rfl

theorem colLoop_congr (px px' : List Nat) (hlen : px.length = px'.length)
    (hrgb : ∀ i, i % 4 ≠ 3 → px.getD i 0 = px'.getD i 0) (width y : Int) :
    ∀ (k : Nat) (x : Int) (out : List Nat),
      colLoop px width y k x out = colLoop px' width y k x out := by
  intro k
  induction k with
  | zero => intro x out; rfl
  | succ k ih =>
    intro x out
    rw [colLoop_succ, colLoop_succ,
      fwrite3_congr px px' hlen hrgb _ (pixelOffset_mod_four width y x)]
    cases fwrite3 px' (pixelOffset width y x) with
    | none => rfl
    | some rgb => exact ih _ _

theorem rowLoop_congr (px px' : List Nat) (hlen : px.length = px'.length)
    (hrgb : ∀ i, i % 4 ≠ 3 → px.getD i 0 = px'.getD i 0) (width : Int) :
    ∀ (k : Nat) (y : Int) (out : List Nat),
      rowLoop px width k y out = rowLoop px' width k y out := by
  intro k
  induction k with
  | zero => intro y out; rfl
  | succ k ih =>
    intro y out
    rw [rowLoop_succ, rowLoop_succ, colLoop_congr px px' hlen hrgb width y]
    cases colLoop px' width y width.toNat 0 out with
    | none => rfl
    | some out1 => exact ih _ _

/-- The result of header and pixel loop does not depend on the alpha bytes of
the buffer; a run that reads outside the buffer does so for both buffers. -/
theorem save_image_data_congr (width height : Int) (px px' : List Nat)
    (hlen : px.length = px'.length)
    (hrgb : ∀ i, i % 4 ≠ 3 → px.getD i 0 = px'.getD i 0) :
    save_image_data width height px = save_image_data width height px' := by
  unfold save_image_data
  exact rowLoop_congr px px' hlen hrgb width _ _ _

/-! ## The pixmap writer: claims C1, C2, C9 and C10 -/

/-- C1: for every width `W > 0` and height `H > 0` (values of an `int`) and
every RGBA8 buffer of `W*H*4` bytes that the read-back returned, that is the
buffer that `save_image` allocated with `malloc(width * height * 4)`, header
and pixel loop of `save_image` run to the end and the bytes written are
exactly the header `P6\n<W> <H>\n255\n` followed, for `y = 0..H-1` in
increasing order and within each row `x = 0..W-1` in increasing order, by the
three bytes at buffer offsets `(y*W+x)*4`, `+1`, `+2`: the file has `3*W*H`
bytes after the header, and byte `3*(y*W+x)+c` of them (`c < 3`) is the byte of
the buffer at offset `(y*W+x)*4+c`.  The alpha byte is not written and the rows
are not flipped. -/
theorem save_image_writes_ppm (W H : Nat) (px : List Nat) (_hW : 0 < W) (_hH : 0 < H)
    (hWmax : (W : Int) ≤ INT_MAX) (hHmax : (H : Int) ≤ INT_MAX)
    (hlen : px.length = W * H * 4) (hbuf : px.length = mallocSize (W : Int) (H : Int)) :
    save_image_data (W : Int) (H : Int) px = some (ppmFile W H px) ∧
    (ppmFile W H px).length = (ppmHeader W H).length + 3 * W * H ∧
    (ppmFile W H px).take (ppmHeader W H).length = ppmHeader W H ∧
    ∀ y x c, y < H → x < W → c < 3 →
      (ppmFile W H px).getD ((ppmHeader W H).length + 3 * (y * W + x) + c) 0
        = px.getD ((y * W + x) * 4 + c) 0 :=
  ⟨save_image_data_eq W H px hlen
      (representable_of_mallocSize hWmax hHmax (by rw [← hbuf, hlen])),
    ppmFile_length W H px,
    by unfold ppmFile; simp,
    fun y x c hy hx hc => ppmFile_getD W H px y x c hy hx hc⟩

/-- Witness of C1: a 2x1 image. -/
theorem save_image_writes_ppm_witness :
    save_image_data 2 1 [1, 2, 3, 4, 5, 6, 7, 8]
      = some [80, 54, 10, 50, 32, 49, 10, 50, 53, 53, 10, 1, 2, 3, 5, 6, 7] :=
  (save_image_writes_ppm 2 1 [1, 2, 3, 4, 5, 6, 7, 8] (by decide) (by decide) (by decide)
    (by decide) (by decide) (by decide)).1.trans (by decide)

/-- C2 as stated fails: for `W = H = 32768` the `int` product
`width * height * 4` wraps to `0`, `malloc` is asked for `0` bytes, and the
first read of the pixel loop already leaves the buffer, so the run does not
produce a file of `3 + len("32768 32768\n") + 4 + 3*W*H` bytes. -/
theorem save_image_size_overflow :
    (0 : Int) < 32768 ∧ (32768 : Int) ≤ INT_MAX ∧
    ([] : List Nat).length = mallocSize 32768 32768 ∧
    ¬ ∃ out, save_image_data 32768 32768 [] = some out ∧
      out.length = 3 + (toString 32768 ++ " " ++ toString 32768 ++ "\n").length + 4
        + 3 * 32768 * 32768 := by
  refine ⟨by decide, by decide, by decide, ?_⟩
  have h : save_image_data 32768 32768 [] = none := by decide
  rintro ⟨out, hout, _⟩
  rw [h] at hout
  cases hout

/-- C2, amended: for every `W > 0` and `H > 0` with `W*H*4` representable as
a 32-bit signed `int`, on the buffer that `save_image` allocated, header and
pixel loop run to the end and the number of bytes written to the file is
`3 + len("<W> <H>\n") + 4 + 3*W*H`. -/
theorem save_image_size (W H : Nat) (px : List Nat) (_hW : 0 < W) (_hH : 0 < H)
    (hrep : ((W * H * 4 : Nat) : Int) ≤ INT_MAX)
    (hbuf : px.length = mallocSize (W : Int) (H : Int)) :
    ∃ out, save_image_data (W : Int) (H : Int) px = some out ∧
      out.length = 3 + (toString W ++ " " ++ toString H ++ "\n").length + 4 + 3 * W * H := by
  have hrep1 : W * H * 4 < 2147483648 := by
    unfold INT_MAX at hrep
    omega
  refine ⟨ppmFile W H px,
    save_image_data_eq W H px (by rw [hbuf, mallocSize_eq hrep1]) hrep1, ?_⟩
  rw [ppmFile_length, ppmHeader_length]

/-- Witness of C2: a 2x1 image, 17 bytes. -/
theorem save_image_size_witness :
    ∃ out, save_image_data 2 1 [1, 2, 3, 4, 5, 6, 7, 8] = some out ∧
      out.length = 3 + (toString 2 ++ " " ++ toString 1 ++ "\n").length + 4 + 3 * 2 * 1 :=
  save_image_size 2 1 [1, 2, 3, 4, 5, 6, 7, 8] (by decide) (by decide) (by decide) (by decide)

/-- C9 as stated fails: for `W = 2`, `H = 536870913` the `int` product
`width * height * 4` wraps to `8`, so the buffer that `save_image` allocates
has 8 bytes; the read of pixel `(y, x) = (1, 0)` at offset 8 leaves it, and for
neither of two such buffers that differ only in their alpha bytes is there a
file that the inputs determine. -/
theorem save_image_data_overflow_no_output :
    (0 : Int) < 2 ∧ (0 : Int) < 536870913 ∧ (536870913 : Int) ≤ INT_MAX ∧
    [1, 2, 3, 4, 5, 6, 7, 8].length = mallocSize 2 536870913 ∧
    [1, 2, 3, 0, 5, 6, 7, 0].length = mallocSize 2 536870913 ∧
    fwrite3 [1, 2, 3, 4, 5, 6, 7, 8] (pixelOffset 2 1 0) = none ∧
    ¬ ∃ out, save_image_data 2 536870913 [1, 2, 3, 4, 5, 6, 7, 8] = some out ∧
      save_image_data 2 536870913 [1, 2, 3, 0, 5, 6, 7, 0] = some out := by
  refine ⟨by decide, by decide, by decide, by decide, by decide, by decide, ?_⟩
  have h : save_image_data 2 536870913 [1, 2, 3, 4, 5, 6, 7, 8] = none := by decide
  rintro ⟨out, hout, _⟩
  rw [h] at hout
  cases hout

/-- C9, amended: for every `W > 0` and `H > 0` with `W*H*4` representable as
a 32-bit signed `int`, writing the pixmap is a function of `W`, `H` and the R,
G, B bytes of the buffer: two buffers of the allocated size that agree at every
offset that is not an alpha byte (offset not congruent to 3 modulo 4) both run
to the end and give the same file, byte for byte; in particular the same
buffer written twice gives the same file. -/
theorem save_image_data_ignores_alpha (W H : Nat) (px px' : List Nat)
    (_hW : 0 < W) (_hH : 0 < H) (hrep : ((W * H * 4 : Nat) : Int) ≤ INT_MAX)
    (hbuf : px.length = mallocSize (W : Int) (H : Int))
    (hbuf' : px'.length = mallocSize (W : Int) (H : Int))
    (hrgb : ∀ i, i % 4 ≠ 3 → px.getD i 0 = px'.getD i 0) :
    ∃ out, save_image_data (W : Int) (H : Int) px = some out ∧
      save_image_data (W : Int) (H : Int) px' = some out := by
  have hrep1 : W * H * 4 < 2147483648 := by
    unfold INT_MAX at hrep
    omega
  have h1 : save_image_data (W : Int) (H : Int) px = some (ppmFile W H px) :=
    save_image_data_eq W H px (by rw [hbuf, mallocSize_eq hrep1]) hrep1
  have h2 : save_image_data (W : Int) (H : Int) px
      = save_image_data (W : Int) (H : Int) px' :=
    save_image_data_congr (W : Int) (H : Int) px px' (by rw [hbuf, hbuf']) hrgb
  exact ⟨ppmFile W H px, h1, by rw [← h2, h1]⟩

/-- Witness of C9: two 1x2 images that differ in both alpha bytes. -/
theorem save_image_data_ignores_alpha_witness :
    ∃ out, save_image_data 1 2 [10, 20, 30, 255, 40, 50, 60, 255] = some out ∧
      save_image_data 1 2 [10, 20, 30, 0, 40, 50, 60, 7] = some out :=
  save_image_data_ignores_alpha 1 2 [10, 20, 30, 255, 40, 50, 60, 255]
    [10, 20, 30, 0, 40, 50, 60, 7] (by decide) (by decide) (by decide) (by decide)
    (by decide) (by
      intro i hi
      rcases i with _ | _ | _ | _ | _ | _ | _ | _ | i
      all_goals first | rfl | exact absurd rfl hi)

/-- C10: for every `W > 0` and `H > 0` with `W*H*4` representable as a 32-bit
signed `int`, the size passed to `malloc` is `W*H*4`, and for all `y < H`,
`x < W`: the intermediate results `y*W`, `y*W+x`, `(y*W+x)*4` (and `W*H`,
`W*H*4`, `y+1`, `x+1`) fit an `int`, the offset is `(y*W+x)*4 >= 0` and the
three bytes read at offsets `(y*W+x)*4 .. +2` lie below the allocated size;
distinct pairs `(y,x)` read disjoint byte ranges, and every pixel of the
buffer is read by exactly one pair. -/
theorem save_image_reads_in_bounds (W H : Nat) (_hW : 0 < W) (_hH : 0 < H)
    (hrep : ((W * H * 4 : Nat) : Int) ≤ INT_MAX) :
    (fitsInt ((W : Int) * H) ∧ fitsInt ((W : Int) * H * 4) ∧
      mallocArg (W : Int) (H : Int) = (W : Int) * H * 4 ∧
      mallocSize (W : Int) (H : Int) = W * H * 4) ∧
    (∀ y x : Nat, y < H → x < W →
      fitsInt ((y : Int) * W) ∧ fitsInt ((y : Int) * W + x) ∧
      fitsInt (((y : Int) * W + x) * 4) ∧ fitsInt ((y : Int) + 1) ∧ fitsInt ((x : Int) + 1) ∧
      pixelOffset (W : Int) (y : Int) (x : Int) = ((y : Int) * W + x) * 4 ∧
      0 ≤ pixelOffset (W : Int) (y : Int) (x : Int) ∧
      pixelOffset (W : Int) (y : Int) (x : Int) + 2 < (mallocSize (W : Int) (H : Int) : Int)) ∧
    (∀ y x y' x' : Nat, y < H → x < W → y' < H → x' < W → (y, x) ≠ (y', x') →
      pixelOffset (W : Int) (y : Int) (x : Int) + 3
          ≤ pixelOffset (W : Int) (y' : Int) (x' : Int) ∨
        pixelOffset (W : Int) (y' : Int) (x' : Int) + 3
          ≤ pixelOffset (W : Int) (y : Int) (x : Int)) ∧
    (∀ p : Nat, p < W * H → ∃! yx : Nat × Nat, yx.1 < H ∧ yx.2 < W ∧
      pixelOffset (W : Int) (yx.1 : Int) (yx.2 : Int) = ((p * 4 : Nat) : Int)) := by
  have hrep1 : W * H * 4 < 2147483648 := by
    unfold INT_MAX at hrep
    omega
  have hoff : ∀ y x : Nat, y < H → x < W →
      pixelOffset (W : Int) (y : Int) (x : Int) = (((y * W + x) * 4 : Nat) : Int) :=
    fun y x hy hx => pixelOffset_eq hy hx hrep1
  have hinj : ∀ y x y' x' : Nat, x < W → x' < W → y * W + x = y' * W + x' →
      y = y' ∧ x = x' := by
    intro y x y' x' hx hx' h
    have h1 : (y * W + x) / W = y := by
      rw [Nat.add_comm, Nat.add_mul_div_right _ _ (by omega), Nat.div_eq_of_lt hx, Nat.zero_add]
    have h2 : (y' * W + x') / W = y' := by
      rw [Nat.add_comm, Nat.add_mul_div_right _ _ (by omega), Nat.div_eq_of_lt hx',
        Nat.zero_add]
    have hy : y = y' := by rw [← h1, ← h2, h]
    subst hy
    exact ⟨rfl, by omega⟩
  refine ⟨?_, ?_, ?_, ?_⟩
  · refine ⟨?_, ?_, ?_, mallocSize_eq hrep1⟩
    · unfold fitsInt INT_MIN INT_MAX
      rw [← Nat.cast_mul]
      omega
    · unfold fitsInt INT_MIN INT_MAX
      rw [← Nat.cast_mul]
      omega
    · rw [mallocArg_eq hrep1]
      push_cast
      ring
  · intro y x hy hx
    have hlt := pixel_index_lt hy hx
    have hyw : y * W ≤ y * W + x := Nat.le_add_right _ _
    have hH31 : H < 2147483648 := by
      have : H ≤ W * H := Nat.le_mul_of_pos_left H _hW
      omega
    have hW31 : W < 2147483648 := by
      have : W ≤ W * H := Nat.le_mul_of_pos_right W _hH
      omega
    rw [hoff y x hy hx, mallocSize_eq hrep1]
    have c1 : (y : Int) * W = ((y * W : Nat) : Int) := by push_cast; ring
    have c2 : (y : Int) * W + x = ((y * W + x : Nat) : Int) := by push_cast; ring
    have c3 : ((y : Int) * W + x) * 4 = (((y * W + x) * 4 : Nat) : Int) := by push_cast; ring
    rw [c3, c2, c1]
    unfold fitsInt INT_MIN INT_MAX
    refine ⟨?_, ?_, ?_, ?_, ?_, rfl, ?_, ?_⟩ <;> omega
  · intro y x y' x' hy hx hy' hx' hne
    rw [hoff y x hy hx, hoff y' x' hy' hx']
    have hne1 : y * W + x ≠ y' * W + x' := by
      intro h
      obtain ⟨h1, h2⟩ := hinj y x y' x' hx hx' h
      exact hne (by rw [h1, h2])
    omega
  · intro p hp
    have hWpos : 0 < W := _hW
    refine ⟨(p / W, p % W), ⟨?_, Nat.mod_lt _ hWpos, ?_⟩, ?_⟩
    · exact Nat.div_lt_of_lt_mul hp
    · have hq : p / W < H := Nat.div_lt_of_lt_mul hp
      rw [hoff (p / W) (p % W) hq (Nat.mod_lt _ hWpos)]
      have : p / W * W + p % W = p := by
        rw [Nat.mul_comm]
        exact Nat.div_add_mod p W
      rw [this]
    · rintro ⟨y, x⟩ ⟨hy, hx, hyx⟩
      simp only at hy hx hyx
      rw [hoff y x hy hx] at hyx
      have hp' : y * W + x = p := by omega
      have hq : p / W < H := Nat.div_lt_of_lt_mul hp
      have hdm : p / W * W + p % W = p := by
        rw [Nat.mul_comm]
        exact Nat.div_add_mod p W
      obtain ⟨h1, h2⟩ := hinj y x (p / W) (p % W) hx (Nat.mod_lt _ hWpos) (by omega)
      rw [h1, h2]

/-- Witness of C10: the dimensions that `main` uses, 800x600, and the last
pixel of the frame. -/
theorem save_image_reads_in_bounds_witness :
    mallocSize ((800 : Nat) : Int) ((600 : Nat) : Int) = 800 * 600 * 4 ∧
    pixelOffset ((800 : Nat) : Int) ((599 : Nat) : Int) ((799 : Nat) : Int) + 2
      < (mallocSize ((800 : Nat) : Int) ((600 : Nat) : Int) : Int) :=
  have h := save_image_reads_in_bounds 800 600 (by decide) (by decide) (by decide)
  ⟨h.1.2.2.2, (h.2.1 599 799 (by decide) (by decide)).2.2.2.2.2.2.2⟩

/-! ## Lemmas on `save_image` and `main` -/

theorem readBack_length (env : Env) (n : Nat) : (readBack env n).length = n := by
  simp [readBack]

theorem mallocSize_800_600 : mallocSize 800 600 = 1920000 := by decide

theorem save_image_fopen_fails (env : Env) (width height : Int) (h : env.fopen_ok = false) :
    save_image env width height =
      { trace := [.fopen false, .perror, .exit EXIT_FAILURE]
        flow := .exits EXIT_FAILURE
        file := none } := by
  unfold save_image
  rw [if_pos h]

theorem save_image_malloc_fails (env : Env) (width height : Int) (h1 : env.fopen_ok = true)
    (h2 : env.malloc_ok = false) :
    save_image env width height =
      { trace := [.fopen true, .malloc (mallocSize width height) false, .perror, .fclose,
          .exit EXIT_FAILURE]
        flow := .exits EXIT_FAILURE
        file := some [] } := by
  unfold save_image
  rw [if_neg (by simp [h1]), if_pos h2]

/-- With the dimensions of `main` the pixel loop stays inside the buffer and
`save_image` returns after writing the file of the specification. -/
theorem save_image_800_600 (env : Env) (h1 : env.fopen_ok = true) (h2 : env.malloc_ok = true) :
    save_image env 800 600 =
      { trace := [.fopen true, .malloc 1920000 true, .glReadPixels, .fclose, .free]
        flow := .returns
        file := some (stored env (ppmFile 800 600 (readBack env 1920000))) } := by
  have hd : save_image_data 800 600 (readBack env 1920000)
      = some (ppmFile 800 600 (readBack env 1920000)) :=
    save_image_data_eq 800 600 (readBack env 1920000) (readBack_length env _) (by norm_num)
  unfold save_image
  rw [if_neg (by simp [h1]), if_neg (by simp [h2]), mallocSize_800_600, hd]

/-- The run of `main` once all nine acquisition steps have succeeded. -/
theorem main_of_allAcquired (env : Env) (h : allAcquired env = true) :
    main env =
      match (save_image env 800 600).flow with
      | .exits code =>
        ⟨acquisitionCalls env ++ render env ++ (save_image env 800 600).trace,
          .exited code, (save_image env 800 600).file⟩
      | .undefined =>
        ⟨acquisitionCalls env ++ render env ++ (save_image env 800 600).trace,
          .undefined, (save_image env 800 600).file⟩
      | .returns =>
        ⟨acquisitionCalls env ++ render env ++ (save_image env 800 600).trace ++
            [.eglDestroySurface, .eglDestroyContext, .eglTerminate, .gbm_surface_destroy,
              .gbm_device_destroy, .close],
          .returned EXIT_SUCCESS, (save_image env 800 600).file⟩ := by
  unfold allAcquired at h
  simp only [Bool.and_eq_true] at h
  obtain ⟨⟨⟨⟨⟨⟨⟨⟨h1, h2⟩, h3⟩, h4⟩, h5⟩, h6⟩, h7⟩, h8⟩, h9⟩ := h
  unfold main acquisitionCalls
  simp only [h1, h2, h3, h4, h5, h6, h7, h8, h9]
  rfl

/-- A run of `main` in which some acquisition step fails is one of the nine
runs `failedRun env k`. -/
theorem main_of_not_allAcquired (env : Env) (h : allAcquired env = false) :
    ∃ k, k < 9 ∧ main env = failedRun env k := by
  unfold allAcquired at h
  cases h1 : env.open_ok
  · exact ⟨0, by omega, by unfold main; simp only [h1]; rfl⟩
  cases h2 : env.gbm_create_device_ok
  · exact ⟨1, by omega, by unfold main; simp only [h1, h2]; rfl⟩
  cases h3 : env.gbm_surface_create_ok
  · exact ⟨2, by omega, by unfold main; simp only [h1, h2, h3]; rfl⟩
  cases h4 : env.eglGetDisplay_ok
  · exact ⟨3, by omega, by unfold main; simp only [h1, h2, h3, h4]; rfl⟩
  cases h5 : env.eglInitialize_ok
  · exact ⟨4, by omega, by unfold main; simp only [h1, h2, h3, h4, h5]; rfl⟩
  cases h6 : env.eglChooseConfig_ok
  · exact ⟨5, by omega, by unfold main; simp only [h1, h2, h3, h4, h5, h6]; rfl⟩
  cases h7 : env.eglCreateContext_ok
  · exact ⟨6, by omega, by unfold main; simp only [h1, h2, h3, h4, h5, h6, h7]; rfl⟩
  cases h8 : env.eglCreateWindowSurface_ok
  · exact ⟨7, by omega, by unfold main; simp only [h1, h2, h3, h4, h5, h6, h7, h8]; rfl⟩
  cases h9 : env.eglMakeCurrent_ok
  · exact ⟨8, by omega, by unfold main; simp only [h1, h2, h3, h4, h5, h6, h7, h8, h9]; rfl⟩
  simp [h1, h2, h3, h4, h5, h6, h7, h8, h9] at h

theorem main_exit_zero_iff (env : Env) :
    exitCode (main env) = some 0 ↔
      (allAcquired env = true ∧ env.fopen_ok = true ∧ env.malloc_ok = true) := by
  cases h : allAcquired env
  · obtain ⟨k, hk, hm⟩ := main_of_not_allAcquired env h
    rw [hm]
    have : exitCode (failedRun env k) = some 1 := by
      interval_cases k <;> rfl
    rw [this]
    simp
  · rw [main_of_allAcquired env h]
    cases hf : env.fopen_ok
    · rw [save_image_fopen_fails env _ _ hf]
      simp [exitCode, EXIT_FAILURE]
    · cases hm : env.malloc_ok
      · rw [save_image_malloc_fails env _ _ hf hm]
        simp [exitCode, EXIT_FAILURE]
      · rw [save_image_800_600 env hf hm]
        simp [exitCode, EXIT_SUCCESS]

theorem render_acquired (env : Env) : acquired (render env) = [] := by
  unfold render CreateTriangle CompileShaderProgram AddShader
  cases h1 : env.glCreateProgram_ok <;> cases h2 : env.compile_ok .GL_VERTEX_SHADER <;>
    cases h3 : env.compile_ok .GL_FRAGMENT_SHADER <;> cases h4 : env.link_ok <;>
    cases h5 : env.validate_ok <;> rfl

theorem render_released (env : Env) : released (render env) = [] := by
  unfold render CreateTriangle CompileShaderProgram AddShader
  cases h1 : env.glCreateProgram_ok <;> cases h2 : env.compile_ok .GL_VERTEX_SHADER <;>
    cases h3 : env.compile_ok .GL_FRAGMENT_SHADER <;> cases h4 : env.link_ok <;>
    cases h5 : env.validate_ok <;> rfl

theorem render_isAcquisition (env : Env) : (render env).filter isAcquisition = [] := by
  unfold render CreateTriangle CompileShaderProgram AddShader
  cases h1 : env.glCreateProgram_ok <;> cases h2 : env.compile_ok .GL_VERTEX_SHADER <;>
    cases h3 : env.compile_ok .GL_FRAGMENT_SHADER <;> cases h4 : env.link_ok <;>
    cases h5 : env.validate_ok <;> rfl

theorem main_returns_of_allAcquired (env : Env) (h : allAcquired env = true)
    (hf : env.fopen_ok = true) (hm : env.malloc_ok = true) :
    main env =
      ⟨acquisitionCalls env ++ render env ++
          [.fopen true, .malloc 1920000 true, .glReadPixels, .fclose, .free] ++
          [.eglDestroySurface, .eglDestroyContext, .eglTerminate, .gbm_surface_destroy,
            .gbm_device_destroy, .close],
        .returned EXIT_SUCCESS,
        some (stored env (ppmFile 800 600 (readBack env 1920000)))⟩ := by
  rw [main_of_allAcquired env h, save_image_800_600 env hf hm]

/-! ## The run of `main`: claims C3, C4, C5 and C7 -/

/-- C3 as stated fails: when all acquisition steps succeed and the output
file cannot be opened, `save_image` ends the process with `exit`, and `main`
has issued no release call although six resources were acquired. -/
theorem main_no_teardown_on_export_failure :
    allAcquired envFopenFails = true ∧
    (main envFopenFails).outcome = .exited EXIT_FAILURE ∧
    acquired (main envFopenFails).trace
      = [.drm_fd, .gbm, .surface, .egl_display, .context, .egl_surface] ∧
    released (main envFopenFails).trace = [] ∧
    released (main envFopenFails).trace ≠ (acquired (main envFopenFails).trace).reverse := by
  have hm : main envFopenFails =
      ⟨acquisitionCalls envFopenFails ++ render envFopenFails ++
          [.fopen false, .perror, .exit EXIT_FAILURE], .exited EXIT_FAILURE, none⟩ := by
    rw [main_of_allAcquired envFopenFails rfl, save_image_fopen_fails envFopenFails _ _ rfl]
  rw [hm]
  decide

/-- C3, amended: in every run in which `main` returns, that is every run in
which some acquisition step fails and every run in which `save_image`
returns, the release calls of `main` release exactly the resources that were
acquired in that run, each once, in the reverse of the order of acquisition,
and they are the last calls of the run. -/
theorem main_teardown_reverse (env : Env)
    (hret : ∃ code, (main env).outcome = .returned code) :
    released (main env).trace = (acquired (main env).trace).reverse ∧
    (released (main env).trace).Nodup ∧
    ∃ pre, (main env).trace = pre ++ ((acquired (main env).trace).reverse.map releaseCall) ∧
      released pre = [] ∧ acquired pre = acquired (main env).trace := by
  cases h : allAcquired env
  · obtain ⟨k, hk, hm⟩ := main_of_not_allAcquired env h
    rw [hm]
    interval_cases k
    · have e : released (failedRun env 0).trace
          = ([] : List Resource) := rfl
      exact ⟨rfl, by rw [e]; decide, ((failedRun env 0).trace.take 2), rfl, rfl, rfl⟩
    · have e : released (failedRun env 1).trace
          = ([.drm_fd] : List Resource) := rfl
      exact ⟨rfl, by rw [e]; decide, ((failedRun env 1).trace.take 3), rfl, rfl, rfl⟩
    · have e : released (failedRun env 2).trace
          = ([.gbm, .drm_fd] : List Resource) := rfl
      exact ⟨rfl, by rw [e]; decide, ((failedRun env 2).trace.take 4), rfl, rfl, rfl⟩
    · have e : released (failedRun env 3).trace
          = ([.surface, .gbm, .drm_fd] : List Resource) := rfl
      exact ⟨rfl, by rw [e]; decide, ((failedRun env 3).trace.take 5), rfl, rfl, rfl⟩
    · have e : released (failedRun env 4).trace
          = ([.egl_display, .surface, .gbm, .drm_fd] : List Resource) := rfl
      exact ⟨rfl, by rw [e]; decide, ((failedRun env 4).trace.take 6), rfl, rfl, rfl⟩
    · have e : released (failedRun env 5).trace
          = ([.egl_display, .surface, .gbm, .drm_fd] : List Resource) := rfl
      exact ⟨rfl, by rw [e]; decide, ((failedRun env 5).trace.take 7), rfl, rfl, rfl⟩
    · have e : released (failedRun env 6).trace
          = ([.egl_display, .surface, .gbm, .drm_fd] : List Resource) := rfl
      exact ⟨rfl, by rw [e]; decide, ((failedRun env 6).trace.take 8), rfl, rfl, rfl⟩
    · have e : released (failedRun env 7).trace
          = ([.context, .egl_display, .surface, .gbm, .drm_fd] : List Resource) := rfl
      exact ⟨rfl, by rw [e]; decide, ((failedRun env 7).trace.take 9), rfl, rfl, rfl⟩
    · have e : released (failedRun env 8).trace
          = ([.egl_surface, .context, .egl_display, .surface, .gbm, .drm_fd] : List Resource) := rfl
      exact ⟨rfl, by rw [e]; decide, ((failedRun env 8).trace.take 10), rfl, rfl, rfl⟩
  · obtain ⟨code, hcode⟩ := hret
    cases hf : env.fopen_ok
    · rw [main_of_allAcquired env h, save_image_fopen_fails env _ _ hf] at hcode
      cases hcode
    cases hmal : env.malloc_ok
    · rw [main_of_allAcquired env h, save_image_malloc_fails env _ _ hf hmal] at hcode
      cases hcode
    rw [main_returns_of_allAcquired env h hf hmal]
    have ha : acquired (acquisitionCalls env ++ render env ++
          [.fopen true, .malloc 1920000 true, .glReadPixels, .fclose, .free] ++
          [.eglDestroySurface, .eglDestroyContext, .eglTerminate, .gbm_surface_destroy,
            .gbm_device_destroy, .close])
        = [.drm_fd, .gbm, .surface, .egl_display, .context, .egl_surface] := by
      unfold acquired
      rw [List.filterMap_append, List.filterMap_append, List.filterMap_append]
      have := render_acquired env
      unfold acquired at this
      rw [this]
      rfl
    have hr : released (acquisitionCalls env ++ render env ++
          [.fopen true, .malloc 1920000 true, .glReadPixels, .fclose, .free] ++
          [.eglDestroySurface, .eglDestroyContext, .eglTerminate, .gbm_surface_destroy,
            .gbm_device_destroy, .close])
        = [.egl_surface, .context, .egl_display, .surface, .gbm, .drm_fd] := by
      unfold released
      rw [List.filterMap_append, List.filterMap_append, List.filterMap_append]
      have := render_released env
      unfold released at this
      rw [this]
      rfl
    have hpa : acquired (acquisitionCalls env ++ render env ++
          [.fopen true, .malloc 1920000 true, .glReadPixels, .fclose, .free])
        = [.drm_fd, .gbm, .surface, .egl_display, .context, .egl_surface] := by
      unfold acquired
      rw [List.filterMap_append, List.filterMap_append]
      have := render_acquired env
      unfold acquired at this
      rw [this]
      rfl
    have hpr : released (acquisitionCalls env ++ render env ++
          [.fopen true, .malloc 1920000 true, .glReadPixels, .fclose, .free]) = [] := by
      unfold released
      rw [List.filterMap_append, List.filterMap_append]
      have := render_released env
      unfold released at this
      rw [this]
      rfl
    simp only [ha, hr]
    exact ⟨rfl, by decide, _, rfl, hpr, hpa⟩

/-- Witness of C3: `eglMakeCurrent` fails after six resources were acquired. -/
theorem main_teardown_reverse_witness :
    acquired (main envMakeCurrentFails).trace
      = [.drm_fd, .gbm, .surface, .egl_display, .context, .egl_surface] ∧
    released (main envMakeCurrentFails).trace
      = (acquired (main envMakeCurrentFails).trace).reverse :=
  ⟨by decide, (main_teardown_reverse envMakeCurrentFails ⟨EXIT_FAILURE, by decide⟩).1⟩

/-- C4 as stated fails: in the run in which every call that the code tests
succeeds and the file system accepts no byte of the output file, `save_image`
writes the 1440015 bytes of the pixmap, none of them reaches the file, and
`main` exits with code 0 all the same: the results of `fprintf`, `fwrite` and
`fclose` (lines 30, 36, 40) are not tested. -/
theorem main_exit_zero_on_failed_write :
    allAcquired envDiskFull = true ∧ envDiskFull.fopen_ok = true ∧
    envDiskFull.malloc_ok = true ∧
    (∃ bytes, save_image_data 800 600 (readBack envDiskFull (mallocSize 800 600)) = some bytes ∧
      bytes.length = 1440015) ∧
    (main envDiskFull).file = some [] ∧
    exitCode (main envDiskFull) = some 0 := by
  have hm := main_returns_of_allAcquired envDiskFull rfl rfl rfl
  have hd : save_image_data 800 600 (readBack envDiskFull 1920000)
      = some (ppmFile 800 600 (readBack envDiskFull 1920000)) :=
    save_image_data_eq 800 600 (readBack envDiskFull 1920000) (readBack_length _ _)
      (by norm_num)
  have hlen : (ppmFile 800 600 (readBack envDiskFull 1920000)).length = 1440015 := by
    rw [ppmFile_length, ppmHeader_length]
    rfl
  refine ⟨rfl, rfl, rfl, ⟨_, by rw [mallocSize_800_600]; exact hd, hlen⟩, ?_, ?_⟩
  · rw [hm]
    rfl
  · rw [hm]
    rfl

/-- C4, amended: in every run in which a successful `eglChooseConfig` reports
at least one configuration, `main` ends with an exit code, and the exit code
is 0 if and only if the nine acquisition calls (device open, GBM device, GBM
surface, display, EGL initialisation, configuration selection, context, window
surface, make-current) report success and `save_image` could open the output
file and allocate the read-back buffer.  In every other such run the exit code
is `EXIT_FAILURE`, which is not 0.  The statement holds for every capacity of
the file system: whether the bytes reach the file has no influence on the
exit code. -/
theorem main_exit_code (env : Env)
    (_hcfg : env.eglChooseConfig_ok = true → 0 < env.num_configs) :
    (exitCode (main env) = some 0 ↔
      (env.open_ok = true ∧ env.gbm_create_device_ok = true ∧
        env.gbm_surface_create_ok = true ∧ env.eglGetDisplay_ok = true ∧
        env.eglInitialize_ok = true ∧ env.eglChooseConfig_ok = true ∧
        env.eglCreateContext_ok = true ∧ env.eglCreateWindowSurface_ok = true ∧
        env.eglMakeCurrent_ok = true ∧ env.fopen_ok = true ∧ env.malloc_ok = true)) ∧
    ((env.fopen_ok = true ∧ env.malloc_ok = true) ↔
      (save_image env 800 600).flow = .returns) ∧
    (exitCode (main env) = some 0 ∨ exitCode (main env) = some EXIT_FAILURE) ∧
    EXIT_FAILURE ≠ 0 := by
  have hsave : (save_image env 800 600).flow = .returns ↔
      (env.fopen_ok = true ∧ env.malloc_ok = true) := by
    cases hf : env.fopen_ok
    · rw [save_image_fopen_fails env _ _ hf]
      simp
    · cases hm : env.malloc_ok
      · rw [save_image_malloc_fails env _ _ hf hm]
        simp
      · rw [save_image_800_600 env hf hm]
        simp
  refine ⟨?_, hsave.symm, ?_, by decide⟩
  · rw [main_exit_zero_iff]
    unfold allAcquired
    simp only [Bool.and_eq_true]
    tauto
  · cases h : allAcquired env
    · obtain ⟨k, hk, hm⟩ := main_of_not_allAcquired env h
      rw [hm]
      right
      interval_cases k <;> rfl
    · rw [main_of_allAcquired env h]
      cases hf : env.fopen_ok
      · rw [save_image_fopen_fails env _ _ hf]
        right
        rfl
      · cases hm : env.malloc_ok
        · rw [save_image_malloc_fails env _ _ hf hm]
          right
          rfl
        · rw [save_image_800_600 env hf hm]
          left
          rfl

/-- Witness of C4: the run in which every call succeeds exits with 0, and the
run in which `eglMakeCurrent` fails exits with `EXIT_FAILURE`. -/
theorem main_exit_code_witness :
    exitCode (main envAllOk) = some 0 ∧
    exitCode (main envMakeCurrentFails) = some EXIT_FAILURE :=
  ⟨(main_exit_code envAllOk (fun _ => by decide)).1.mpr (by decide),
    ((main_exit_code envMakeCurrentFails (fun _ => by decide)).2.2.1).resolve_left
      (by decide)⟩

/-- C5, the code at the failing input: when `eglChooseConfig` returns
`EGL_TRUE` and reports zero matching configurations, `main` does not treat
the selection as failed.  `eglCreateContext` is called; when the later calls
succeed the process exits with code 0, and when the driver rejects the context
the call has been made all the same. -/
theorem main_ignores_zero_configs :
    envNoConfig.eglChooseConfig_ok = true ∧ envNoConfig.num_configs = 0 ∧
    Call.eglChooseConfig true 0 ∈ (main envNoConfig).trace ∧
    Call.eglCreateContext true ∈ (main envNoConfig).trace ∧
    exitCode (main envNoConfig) = some 0 ∧
    envNoConfigRejected.num_configs = 0 ∧
    Call.eglCreateContext false ∈ (main envNoConfigRejected).trace := by
  have hm := main_returns_of_allAcquired envNoConfig rfl rfl rfl
  refine ⟨rfl, rfl, ?_, ?_, ?_, rfl, by decide⟩
  · rw [hm]
    simp [acquisitionCalls, envNoConfig, envAllOk]
  · rw [hm]
    simp [acquisitionCalls]
  · rw [hm]
    rfl

/-- C7: in every run of `main` in which all nine acquisition steps succeed,
the acquisition calls are made once each, in the order `open`,
`gbm_create_device`, `gbm_surface_create`, `eglGetDisplay`, `eglInitialize`,
`eglChooseConfig`, `eglCreateContext`, `eglCreateWindowSurface`,
`eglMakeCurrent`; they are the first calls of the run, every call into
OpenGL ES comes after the successful `eglMakeCurrent`, and the draw call is
issued.  In every run in which one of the nine steps fails, no call into
OpenGL ES is made, so no draw call. -/
theorem main_acquires_before_drawing (env : Env) :
    (allAcquired env = true →
      (main env).trace.filter isAcquisition = acquisitionCalls env ∧
      (∃ rest, (main env).trace = acquisitionCalls env ++ rest) ∧
      (∀ pre c post, (main env).trace = pre ++ c :: post → isGL c = true →
        Call.eglMakeCurrent true ∈ pre) ∧
      Call.glDrawArrays ∈ (main env).trace) ∧
    (allAcquired env = false →
      (∀ c ∈ (main env).trace, isGL c = false) ∧ Call.glDrawArrays ∉ (main env).trace) := by
  constructor
  · intro h
    have hrest : ∃ rest, (main env).trace = acquisitionCalls env ++ (render env ++ rest) ∧
        rest.filter isAcquisition = [] := by
      rw [main_of_allAcquired env h]
      cases hf : env.fopen_ok
      · rw [save_image_fopen_fails env _ _ hf]
        exact ⟨[.fopen false, .perror, .exit EXIT_FAILURE],
          by simp only [List.append_assoc], rfl⟩
      cases hm : env.malloc_ok
      · rw [save_image_malloc_fails env _ _ hf hm]
        exact ⟨[.fopen true, .malloc (mallocSize 800 600) false, .perror, .fclose,
          .exit EXIT_FAILURE], by simp only [List.append_assoc], rfl⟩
      rw [save_image_800_600 env hf hm]
      exact ⟨[Call.fopen true, Call.malloc 1920000 true, Call.glReadPixels, Call.fclose,
            Call.free] ++
          [Call.eglDestroySurface, Call.eglDestroyContext, Call.eglTerminate,
            Call.gbm_surface_destroy, Call.gbm_device_destroy, Call.close],
        by simp only [List.append_assoc], by rfl⟩
    obtain ⟨rest, htr, hfil⟩ := hrest
    have hacq : (acquisitionCalls env).filter isAcquisition = acquisitionCalls env := rfl
    have hgl : ∀ c ∈ acquisitionCalls env, isGL c = false := by
      intro c hc
      simp only [acquisitionCalls, List.mem_cons, List.mem_singleton, List.not_mem_nil,
        or_false] at hc
      rcases hc with rfl | rfl | rfl | rfl | rfl | rfl | rfl | rfl | rfl <;> rfl
    refine ⟨?_, ⟨_, htr⟩, ?_, ?_⟩
    · rw [htr, List.filter_append, List.filter_append, render_isAcquisition, hfil, hacq]
      simp
    · intro pre c post hsplit hc
      rw [htr] at hsplit
      rcases List.append_eq_append_iff.mp hsplit with ⟨a, ha, _⟩ | ⟨b, hb, hb2⟩
      · rw [ha]
        exact List.mem_append_left _ (by simp [acquisitionCalls])
      · cases b with
        | nil =>
          rw [List.append_nil] at hb
          rw [← hb]
          simp [acquisitionCalls]
        | cons d b =>
          rw [List.cons_append] at hb2
          have hd : c = d := (List.cons.inj hb2).1
          have hmem : c ∈ acquisitionCalls env := by
            rw [hb, hd]
            simp
          rw [hgl c hmem] at hc
          cases hc
    · rw [htr]
      apply List.mem_append_right
      apply List.mem_append_left
      unfold render
      simp
  · intro h
    obtain ⟨k, hk, hm⟩ := main_of_not_allAcquired env h
    rw [hm]
    have hall : ∀ c ∈ (failedRun env k).trace, isGL c = false := by
      have hb : (failedRun env k).trace.all (fun c => !isGL c) = true := by
        interval_cases k <;> rfl
      intro c hc
      have := List.all_eq_true.mp hb c hc
      simpa using this
    exact ⟨hall, fun hmem => by have := hall _ hmem; cases this⟩

/-- Witness of C7: the run in which every call succeeds, and the run in
which `eglMakeCurrent` fails. -/
theorem main_acquires_before_drawing_witness :
    (main envAllOk).trace.filter isAcquisition =
      [.open_ true, .gbm_create_device true, .gbm_surface_create true, .eglGetDisplay true,
        .eglInitialize true, .eglChooseConfig true 1, .eglCreateContext true,
        .eglCreateWindowSurface true, .eglMakeCurrent true] ∧
    Call.glDrawArrays ∈ (main envAllOk).trace ∧
    Call.glDrawArrays ∉ (main envMakeCurrentFails).trace :=
  ⟨((main_acquires_before_drawing envAllOk).1 rfl).1,
    ((main_acquires_before_drawing envAllOk).1 rfl).2.2.2,
    ((main_acquires_before_drawing envMakeCurrentFails).2 rfl).2⟩

/-! ## Shaders and `save_image`: claims C6 and C8 -/

theorem printf_s_infoLog_length (driverLog : List Nat) :
    (printf_s (infoLog driverLog 1024)).length + 1 ≤ 1024 := by
  unfold printf_s infoLog
  have h1 := (List.takeWhile_sublist (fun c => c != 0) (l := driverLog.take (1024 - 1))).length_le
  have h2 := List.length_take_le (1024 - 1) driverLog
  omega

/-- C6: when `glCreateProgram` returned a non-zero program, then for every
combination of compile outcomes of the two stages `CompileShaderProgram`
attaches exactly the stages whose compilation succeeded; it links exactly
once, after both compilations and after every attachment, whatever the compile
outcomes; it validates exactly when the link succeeded; it makes no call that
ends the process; and every log that it reports has at most 1024 bytes, the
terminating null included. -/
theorem CompileShaderProgram_attaches_links_validates (env : Env)
    (hprog : env.glCreateProgram_ok = true) :
    (∀ stage, Call.glAttachShader stage ∈ CompileShaderProgram env ↔
      env.compile_ok stage = true) ∧
    (CompileShaderProgram env).count .glLinkProgram = 1 ∧
    (∃ pre post, CompileShaderProgram env = pre ++ .glLinkProgram :: post ∧
      (∀ stage, Call.glCompileShader stage ∈ pre) ∧
      (∀ stage, Call.glAttachShader stage ∉ post)) ∧
    (Call.glValidateProgram ∈ CompileShaderProgram env ↔ env.link_ok = true) ∧
    (∀ code, Call.exit code ∉ CompileShaderProgram env) ∧
    (∀ log, Call.printf log ∈ CompileShaderProgram env → log.length + 1 ≤ 1024) := by
  have hl1 := printf_s_infoLog_length (env.shader_log .GL_VERTEX_SHADER)
  have hl2 := printf_s_infoLog_length (env.shader_log .GL_FRAGMENT_SHADER)
  have hl3 := printf_s_infoLog_length env.link_log
  have hl4 := printf_s_infoLog_length env.validate_log
  refine ⟨?_, ?_, ?_, ?_, ?_, ?_⟩
  · intro stage
    cases stage <;>
      cases h2 : env.compile_ok .GL_VERTEX_SHADER <;>
      cases h3 : env.compile_ok .GL_FRAGMENT_SHADER <;> cases h4 : env.link_ok <;>
      cases h5 : env.validate_ok <;>
      simp [CompileShaderProgram, AddShader, hprog, h2, h3, h4, h5]
  · cases h2 : env.compile_ok .GL_VERTEX_SHADER <;>
      cases h3 : env.compile_ok .GL_FRAGMENT_SHADER <;> cases h4 : env.link_ok <;>
      cases h5 : env.validate_ok <;>
      simp only [CompileShaderProgram, AddShader, hprog, h2, h3, h4, h5] <;> rfl
  · refine ⟨[Call.glCreateProgram env.glCreateProgram_ok] ++
        (AddShader env .GL_VERTEX_SHADER ++ AddShader env .GL_FRAGMENT_SHADER),
      [Call.glGetProgramiv env.link_ok] ++
        (if env.link_ok = false then
          [Call.glGetProgramInfoLog 1024, Call.printf (printf_s (infoLog env.link_log 1024))]
        else
          [Call.glValidateProgram, Call.glGetProgramiv env.validate_ok] ++
          if env.validate_ok = false then
            [Call.glGetProgramInfoLog 1024,
              Call.printf (printf_s (infoLog env.validate_log 1024))]
          else
            []), ?_, ?_, ?_⟩
    · unfold CompileShaderProgram
      rw [if_neg (by simp [hprog])]
      simp only [List.append_assoc, List.cons_append, List.nil_append]
    · intro stage
      cases stage <;> simp [AddShader]
    · intro stage
      cases stage <;> cases h4 : env.link_ok <;> cases h5 : env.validate_ok <;> simp
  · cases h2 : env.compile_ok .GL_VERTEX_SHADER <;>
      cases h3 : env.compile_ok .GL_FRAGMENT_SHADER <;> cases h4 : env.link_ok <;>
      cases h5 : env.validate_ok <;>
      simp [CompileShaderProgram, AddShader, hprog, h2, h3, h4, h5]
  · intro code
    cases h2 : env.compile_ok .GL_VERTEX_SHADER <;>
      cases h3 : env.compile_ok .GL_FRAGMENT_SHADER <;> cases h4 : env.link_ok <;>
      cases h5 : env.validate_ok <;>
      simp [CompileShaderProgram, AddShader, hprog, h2, h3, h4, h5]
  · intro log hlog
    cases h2 : env.compile_ok .GL_VERTEX_SHADER <;>
      cases h3 : env.compile_ok .GL_FRAGMENT_SHADER <;> cases h4 : env.link_ok <;>
      cases h5 : env.validate_ok <;>
      simp [CompileShaderProgram, AddShader, hprog, h2, h3, h4, h5] at hlog <;>
      (try rcases hlog with rfl | rfl | rfl) <;> assumption

/-- Witness of C6: the vertex stage fails to compile; the fragment stage is
attached, the program is linked and validated. -/
theorem CompileShaderProgram_attaches_links_validates_witness :
    Call.glAttachShader .GL_VERTEX_SHADER ∉ CompileShaderProgram envVertexFails ∧
    Call.glAttachShader .GL_FRAGMENT_SHADER ∈ CompileShaderProgram envVertexFails ∧
    (CompileShaderProgram envVertexFails).count .glLinkProgram = 1 ∧
    Call.glValidateProgram ∈ CompileShaderProgram envVertexFails :=
  have h := CompileShaderProgram_attaches_links_validates envVertexFails rfl
  ⟨fun hmem => absurd ((h.1 .GL_VERTEX_SHADER).mp hmem) (by decide),
    (h.1 .GL_FRAGMENT_SHADER).mpr rfl, h.2.1, h.2.2.2.1.mpr rfl⟩

/-- C8: on every exit path of `save_image` (the file cannot be opened, the
buffer cannot be allocated, normal completion), for every width and height,
the number of `fclose` calls equals the number of streams opened and the
number of `free` calls equals the number of buffers allocated, and a call of
`exit` is the last call of the function.  When the file cannot be opened the
process exits with `EXIT_FAILURE`, which is not 0, and no buffer was
allocated. -/
theorem save_image_releases_file_and_buffer (env : Env) (width height : Int)
    (hpath : (save_image env width height).flow ≠ .undefined) :
    filesClosed (save_image env width height).trace
      = filesOpened (save_image env width height).trace ∧
    buffersFreed (save_image env width height).trace
      = buffersAllocated (save_image env width height).trace ∧
    (∀ code, Call.exit code ∈ (save_image env width height).trace →
      (save_image env width height).trace.getLast? = some (.exit code)) ∧
    (env.fopen_ok = false →
      (save_image env width height).flow = .exits EXIT_FAILURE ∧ EXIT_FAILURE ≠ 0 ∧
      buffersAllocated (save_image env width height).trace = 0 ∧
      filesOpened (save_image env width height).trace = 0) := by
  cases hf : env.fopen_ok
  · rw [save_image_fopen_fails env _ _ hf]
    refine ⟨rfl, rfl, ?_, fun _ => ⟨rfl, by decide, rfl, rfl⟩⟩
    intro code hcode
    simp only [List.mem_cons, List.mem_singleton, List.not_mem_nil, or_false, reduceCtorEq,
      false_or, Call.exit.injEq] at hcode
    rw [hcode]
    rfl
  cases hm : env.malloc_ok
  · rw [save_image_malloc_fails env _ _ hf hm]
    refine ⟨rfl, rfl, ?_, fun h => by cases h⟩
    intro code hcode
    simp only [List.mem_cons, List.mem_singleton, List.not_mem_nil, or_false, reduceCtorEq,
      false_or, Call.exit.injEq] at hcode
    rw [hcode]
    rfl
  unfold save_image at hpath ⊢
  rw [if_neg (by simp [hf]), if_neg (by simp [hm])] at hpath ⊢
  cases hd : save_image_data width height (readBack env (mallocSize width height)) with
  | none =>
    rw [hd] at hpath
    exact absurd rfl hpath
  | some bytes =>
    refine ⟨rfl, rfl, ?_, fun h => by cases h⟩
    intro code hcode
    simp only [List.mem_cons, List.mem_singleton, List.not_mem_nil, or_false, reduceCtorEq,
      false_or] at hcode

/-- Witness of C8: the output file cannot be opened. -/
theorem save_image_releases_file_and_buffer_witness :
    (save_image envFopenFails 800 600).flow = .exits EXIT_FAILURE ∧
    buffersAllocated (save_image envFopenFails 800 600).trace = 0 ∧
    filesClosed (save_image envFopenFails 800 600).trace
      = filesOpened (save_image envFopenFails 800 600).trace :=
  have h := save_image_releases_file_and_buffer envFopenFails 800 600 (by decide)
  ⟨(h.2.2.2 rfl).1, (h.2.2.2 rfl).2.2.1, h.1⟩

end PpmTriangle
